import Mathlib

/-!
Verification of the backend abstraction and tool-invocation protocol layer of
the nyuctf_multiagent repository (`src/nyuctf_multiagent/backends/`).

The Python sources are shallowly embedded: JSON data is the inductive `JValue`,
Python dicts are ordered association lists (Python 3.7+ dicts preserve
insertion order), fallible Python code returns `Except`/explicit outcome
types, and uncaught Python exceptions are an explicit `raised` alternative.
Numeric values are modelled with `ℚ` (Python `==` identifies `3` and `3.0`,
so ints and floats share the `num` constructor).
-/

/-- JSON values as produced by Python's `json.loads`, and more generally the
dynamic values that flow through tool-call arguments.  Python `int`/`float`
are merged into `num` (Python `==` identifies them); `obj` keeps insertion
order like a Python dict. -/
inductive JValue where
  | null
  | bool (b : Bool)
  | num (q : ℚ)
  | str (s : String)
  | arr (elems : List JValue)
  | obj (entries : List (String × JValue))

/-- Python truthiness of a JSON-shaped value: `None`, `False`, `0`, `""`,
`[]`, `{}` are falsy, everything else truthy. -/
def pyTruthy : JValue → Bool
  | .null => false
  | .bool b => b
  | .num q => q ≠ 0
  | .str s => !s.isEmpty
  | .arr l => !l.isEmpty
  | .obj m => !m.isEmpty

/-- Truthiness of an optional attribute (`None` when absent). -/
def optTruthy : Option JValue → Bool
  | none => false
  | some v => pyTruthy v

/-- Keys of a dict, in insertion order. -/
def objKeys (m : List (String × JValue)) : List String := m.map Prod.fst

/-- Dict lookup (`m[k]` / `m.get(k)`): first entry with the key. -/
def objFind? (m : List (String × JValue)) (k : String) : Option JValue :=
  match m with
  | [] => none
  | (k0, v0) :: rest => if k0 = k then some v0 else objFind? rest k

/-- Dict item assignment on an existing key (`m[k] = v` keeps the key's
position). -/
def objSet (m : List (String × JValue)) (k : String) (v : JValue) :
    List (String × JValue) :=
  m.map (fun kv => if kv.1 = k then (k, v) else kv)

/-- Dict insertion while building an object from JSON source text: a repeated
key overwrites the earlier value in place (Python dict semantics). -/
def objInsert (m : List (String × JValue)) (k : String) (v : JValue) :
    List (String × JValue) :=
  if (objKeys m).contains k then objSet m k v else m ++ [(k, v)]

/-! ### A model of `json.loads`

Fuel-based recursive-descent parser for the JSON fragment the repository
exchanges: null / true / false, decimal numbers with optional fraction and
exponent, strings with the common escapes, arrays and objects.  `none` stands
for `json.JSONDecodeError`. -/

def isJsonWs (c : Char) : Bool :=
  c = ' ' || c = '\t' || c = '\n' || c = '\r'

def skipWs : List Char → List Char
  | [] => []
  | c :: cs => if isJsonWs c then skipWs cs else c :: cs

def isDigitChar (c : Char) : Bool := '0' ≤ c && c ≤ '9'

def digitsToNat (ds : List Char) : Nat :=
  ds.foldl (fun n c => n * 10 + (c.toNat - '0'.toNat)) 0

/-- Split a leading run of decimal digits. -/
def spanDigits : List Char → List Char × List Char
  | [] => ([], [])
  | c :: cs =>
    if isDigitChar c then
      let (ds, rest) := spanDigits cs
      (c :: ds, rest)
    else ([], c :: cs)

/-- Parse a JSON number (integer part, optional fraction, optional exponent)
into an exact rational. -/
def parseJsonNum (cs : List Char) : Option (ℚ × List Char) :=
  let (neg, cs1) := match cs with
    | '-' :: rest => (true, rest)
    | _ => (false, cs)
  let (ipart, cs2) := spanDigits cs1
  if ipart.isEmpty then none
  else
    let (fpart, cs3) := match cs2 with
      | '.' :: rest =>
        let (ds, r) := spanDigits rest
        (ds, if ds.isEmpty then '.' :: rest else r)
      | _ => ([], cs2)
    match cs2 with
    | '.' :: rest =>
      if (spanDigits rest).1.isEmpty then none
      else parseJsonNumExp neg ipart fpart cs3
    | _ => parseJsonNumExp neg ipart fpart cs3
where
  /-- Finish a number: optional exponent, then assemble the rational.
  Core `Rat` operations are used so that concrete inputs evaluate. -/
  parseJsonNumExp (neg : Bool) (ipart fpart : List Char) (cs : List Char) :
      Option (ℚ × List Char) :=
    let mantissa : ℚ := mkRat (Int.ofNat (digitsToNat (ipart ++ fpart))) (10 ^ fpart.length)
    let signed : ℚ := if neg then Rat.neg mantissa else mantissa
    match cs with
    | 'e' :: rest => parseJsonNumExpDigits signed rest
    | 'E' :: rest => parseJsonNumExpDigits signed rest
    | _ => some (signed, cs)
  /-- Exponent digits with an optional sign. -/
  parseJsonNumExpDigits (base : ℚ) (cs : List Char) : Option (ℚ × List Char) :=
    let (eneg, cs1) := match cs with
      | '-' :: rest => (true, rest)
      | '+' :: rest => (false, rest)
      | _ => (false, cs)
    let (eds, cs2) := spanDigits cs1
    if eds.isEmpty then none
    else
      let e := digitsToNat eds
      some (if eneg then Rat.div base (mkRat (Int.ofNat (10 ^ e)) 1)
            else Rat.mul base (mkRat (Int.ofNat (10 ^ e)) 1), cs2)

/-- Parse the body of a JSON string after the opening quote, handling the
common escapes. -/
def parseJsonStr (fuel : Nat) (cs : List Char) (acc : List Char) :
    Option (String × List Char) :=
  match fuel, cs with
  | _, [] => none
  | 0, _ => none
  | fuel + 1, c :: rest =>
    if c = '"' then some (String.mk acc.reverse, rest)
    else if c = '\\' then
      match rest with
      | [] => none
      | e :: rest2 =>
        let dec : Option Char :=
          if e = '"' then some '"'
          else if e = '\\' then some '\\'
          else if e = '/' then some '/'
          else if e = 'n' then some '\n'
          else if e = 't' then some '\t'
          else if e = 'r' then some '\r'
          else none
        match dec with
        | none => none
        | some d => parseJsonStr fuel rest2 (d :: acc)
    else parseJsonStr fuel rest (c :: acc)

mutual

def parseJsonVal : Nat → List Char → Option (JValue × List Char)
  | 0, _ => none
  | fuel + 1, cs =>
    match skipWs cs with
    | 'n' :: 'u' :: 'l' :: 'l' :: rest => some (.null, rest)
    | 't' :: 'r' :: 'u' :: 'e' :: rest => some (.bool true, rest)
    | 'f' :: 'a' :: 'l' :: 's' :: 'e' :: rest => some (.bool false, rest)
    | '"' :: rest => (parseJsonStr fuel rest []).map (fun sr => (.str sr.1, sr.2))
    | '[' :: rest =>
      (match skipWs rest with
       | ']' :: rest2 => some (.arr [], rest2)
       | rest2 => parseJsonArrItems fuel rest2 [])
    | '{' :: rest =>
      (match skipWs rest with
       | '}' :: rest2 => some (.obj [], rest2)
       | rest2 => parseJsonObjItems fuel rest2 [])
    | cs2 => (parseJsonNum cs2).map (fun qr => (.num qr.1, qr.2))

def parseJsonArrItems : Nat → List Char → List JValue → Option (JValue × List Char)
  | 0, _, _ => none
  | fuel + 1, cs, acc =>
    match parseJsonVal fuel cs with
    | none => none
    | some (v, rest) =>
      match skipWs rest with
      | ',' :: rest2 => parseJsonArrItems fuel rest2 (v :: acc)
      | ']' :: rest2 => some (.arr (v :: acc).reverse, rest2)
      | _ => none

def parseJsonObjItems : Nat → List Char → List (String × JValue) →
    Option (JValue × List Char)
  | 0, _, _ => none
  | fuel + 1, cs, acc =>
    match skipWs cs with
    | '"' :: rest =>
      (match parseJsonStr fuel rest [] with
       | none => none
       | some (k, rest2) =>
         match skipWs rest2 with
         | ':' :: rest3 =>
           (match parseJsonVal fuel rest3 with
            | none => none
            | some (v, rest4) =>
              match skipWs rest4 with
              | ',' :: rest5 => parseJsonObjItems fuel rest5 (objInsert acc k v)
              | '}' :: rest5 => some (.obj (objInsert acc k v), rest5)
              | _ => none)
         | _ => none)
    | _ => none

end

/-- Model of Python `json.loads`: parse one JSON value and require only
whitespace after it; `none` is a `json.JSONDecodeError`. -/
def json_loads (s : String) : Option JValue :=
  match parseJsonVal (2 * s.length + 16) s.data with
  | none => none
  | some (v, rest) => if (skipWs rest).isEmpty then some v else none

/-! ### A model of Python `float()` coercion -/

/-- Python `float(str)` on plain decimal literals: optional surrounding
whitespace, optional sign, digits with optional fraction and exponent
(`"3.14"`, `"-2"`, `"1e3"`, `".5"`, `"2."`).  The special forms
`inf`/`nan`/underscored literals are outside the model; `none` stands for
`ValueError`. -/
def pyFloatOfString (s : String) : Option ℚ :=
  let cs := skipWs s.data
  let (neg, cs1) := match cs with
    | '-' :: rest => (true, rest)
    | '+' :: rest => (false, rest)
    | _ => (false, cs)
  let (ipart, cs2) := spanDigits cs1
  let (fpart, cs3) := match cs2 with
    | '.' :: rest => spanDigits rest
    | _ => ([], cs2)
  let hadDot : Bool := match cs2 with
    | '.' :: _ => true
    | _ => false
  if ipart.isEmpty && fpart.isEmpty then none
  else
    let mantissa : ℚ := mkRat (Int.ofNat (digitsToNat (ipart ++ fpart))) (10 ^ fpart.length)
    let signed : ℚ := if neg then Rat.neg mantissa else mantissa
    let afterNum := if hadDot then cs3 else cs2
    match afterNum with
    | 'e' :: rest => pyFloatExp signed rest
    | 'E' :: rest => pyFloatExp signed rest
    | rest => if (skipWs rest).isEmpty then some signed else none
where
  /-- Exponent part of a Python float literal. -/
  pyFloatExp (base : ℚ) (cs : List Char) : Option ℚ :=
    let (eneg, cs1) := match cs with
      | '-' :: rest => (true, rest)
      | '+' :: rest => (false, rest)
      | _ => (false, cs)
    let (eds, cs2) := spanDigits cs1
    if eds.isEmpty || !(skipWs cs2).isEmpty then none
    else
      let e := digitsToNat eds
      some (if eneg then Rat.div base (mkRat (Int.ofNat (10 ^ e)) 1)
            else Rat.mul base (mkRat (Int.ofNat (10 ^ e)) 1))

/-- Failure modes of Python `float(x)`: `ValueError` for an unparsable
string (its message quotes the offending string), `TypeError` for an
argument that is not a string or number (the message names the type). -/
inductive PyFloatErr where
  | valueErr (offending : String)
  | typeErr (tyName : String)
  deriving DecidableEq

/-- Python `float(x)` on a dynamic value: numbers (and bools, which are
ints) convert; strings are parsed; `None`, lists and dicts raise
`TypeError`. -/
def pyFloat : JValue → Except PyFloatErr ℚ
  | .num q => .ok q
  | .bool b => .ok (if b then 1 else 0)
  | .str s =>
    match pyFloatOfString s with
    | some q => .ok q
    | none => .error (.valueErr s)
  | .null => .error (.typeErr "NoneType")
  | .arr _ => .error (.typeErr "list")
  | .obj _ => .error (.typeErr "dict")

/-! ### A model of `json.dumps` (used when formatting observation turns).
The exact numeric rendering is abstracted (no claim inspects it); structure
and separators follow `json.dumps` defaults. -/

/-- Serialize a string with the basic escapes. -/
def jsonDumpStr (s : String) : String :=
  "\"" ++ String.join (s.data.map (fun c =>
    if c = '"' then "\\\""
    else if c = '\\' then "\\\\"
    else if c = '\n' then "\\n"
    else if c = '\t' then "\\t"
    else if c = '\r' then "\\r"
    else String.mk [c])) ++ "\""

def jsonDumps : JValue → String
  | .null => "null"
  | .bool true => "true"
  | .bool false => "false"
  | .num q => toString q.num ++ (if q.den = 1 then "" else "/" ++ toString q.den)
  | .str s => jsonDumpStr s
  | .arr l =>
    "[" ++ String.intercalate ", " (l.attach.map (fun x => jsonDumps x.1)) ++ "]"
  | .obj m =>
    "\x7b" ++ String.intercalate ", "
      (m.attach.map (fun x => jsonDumpStr x.1.1 ++ ": " ++ jsonDumps x.1.2)) ++ "\x7d"
decreasing_by
  · have h := List.sizeOf_lt_of_mem x.2
    simp only [JValue.arr.sizeOf_spec]
    omega
  · have h := List.sizeOf_lt_of_mem x.2
    have h2 : sizeOf x.1.2 ≤ sizeOf x.1 := by
      obtain ⟨⟨k, v⟩, hx⟩ := x
      simp [Prod.mk.sizeOf_spec]
    simp only [JValue.obj.sizeOf_spec]
    omega

/-! ### Tool registry data model

`Tool` mirrors the static tool-class attributes used by
`Backend.parse_tool_arguments` and the schema builders (`NAME`,
`DESCRIPTION`, `PARAMETERS : dict name -> (type tag, description)`,
`REQUIRED_PARAMETERS : set`).  `PARAMETERS` keeps declaration order (a
Python dict); `REQUIRED_PARAMETERS` is a Python set, modelled as a
duplicate-free list. -/
structure Tool where
  NAME : String
  DESCRIPTION : String
  PARAMETERS : List (String × String × String)
  REQUIRED_PARAMETERS : List String

/-- Names of the declared parameters (`tool.PARAMETERS.keys()`). -/
def Tool.paramNames (t : Tool) : List String := t.PARAMETERS.map Prod.fst

/-- Declared type tag of one parameter (`tool.PARAMETERS[param][0]`). -/
def Tool.paramType? (t : Tool) (p : String) : Option String :=
  (t.PARAMETERS.find? (fun q => q.1 = p)).map (fun q => q.2.1)

/-- `ToolCall` as constructed by the backends and consumed by the validator.
The class itself lives in `tools/tool.py` (not under `src/`); its fields are
exactly the attributes the `src/` code reads and writes: `name`, `id`,
`arguments` (a JSON-encoded string for OpenAI-style vendors, an
already-structured mapping for Gemini-style vendors), `parsed_arguments`
(absent until the validator populates it) and the optional
`thought_signature`. -/
structure ToolCall where
  name : String
  id : String
  arguments : JValue
  parsed_arguments : Option JValue := none
  thought_signature : Option String := none

/-- Structured rendering of the f-string error messages built in
`Backend.parse_tool_arguments`; each constructor records exactly the data the
corresponding f-string interpolates. -/
inductive ErrMsg where
  /-- `f"Tool {name} not found. Use one of the provided tools: {list(self.tools.keys())}"` -/
  | toolNotFound (toolName : String) (validTools : List String)
  /-- `f"Missing required parameters for {name}: {missing}"` -/
  | missingParams (toolName : String) (missing : List String)
  /-- `f"{type(e).__name__} while decoding parameters for {name}: {e}"` (a
  `json.JSONDecodeError` on the raw argument string) -/
  | jsonDecodeErr (toolName : String) (raw : String)
  /-- `f"Type error in parameters for {name}: {e}"` where `e` is the
  `ValueError` from `float()`, whose text quotes the offending string -/
  | typeErr (toolName : String) (offending : String)
  deriving DecidableEq

/-- Modelled from the spec: `ToolResult` (its class is in `tools/tool.py`,
which is not under `src/`).  §3 gives it a back-reference to the originating
call, and exactly one of `result` / `error`; the `src/` formatting code also
reads `.name` from it, so the model carries the tool name as well.
`ToolResult.error_for_call(call, msg)` builds the error variant correlated to
the call. -/
structure ToolResult where
  id : String
  name : String
  result : Option JValue := none
  error : Option ErrMsg := none

def ToolResult.error_for_call (tc : ToolCall) (msg : ErrMsg) : ToolResult :=
  { id := tc.id, name := tc.name, error := some msg }

/-- The Python exceptions that can cross function boundaries in this layer.
Vendor SDK exception classes are flattened to one constructor each; `except`
clauses that catch a single class are modelled by matching that constructor
(none of the caught classes is a superclass of another exception used
here). -/
inductive PyExn where
  | rateLimitError
  /-- `openai.BadRequestError` -/
  | badRequestError
  /-- `together.error.InvalidRequestError` -/
  | invalidRequestError
  /-- `TypeError`, detail names the offending type -/
  | typeError (detail : String)
  /-- `AttributeError`, detail names the missing attribute -/
  | attributeError (detail : String)
  /-- `IndexError` from `response.choices[0]` on an empty list -/
  | indexError
  /-- `json.JSONDecodeError` escaping `json.loads` outside the validator -/
  | jsonDecodeError (raw : String)
  | otherError (detail : String)
  deriving DecidableEq

/-- Outcome of `Backend.parse_tool_arguments`.  The Python method returns
`(True, tool_call)` or `(False, tool_result)`, or lets an exception
propagate; since it mutates the ToolCall in place, the `errored` and
`raised` alternatives also record the ToolCall's post-state. -/
inductive ParseOutcome where
  | ok (tc : ToolCall)
  | errored (res : ToolResult) (tc : ToolCall)
  | raised (e : PyExn) (tc : ToolCall)

/-- Registry lookup (`self.tools[name]`, keyed by tool name). -/
def lookupTool (tools : List (String × Tool)) (nm : String) : Option Tool :=
  match tools with
  | [] => none
  | (k, t) :: rest => if k = nm then some t else lookupTool rest nm

/-- The state written by `tool_call.parsed_arguments = v`.  When the raw
arguments were not a string, `parsed_arguments` is assigned the `arguments`
object itself, so every later in-place mutation is visible through both
attributes; the model therefore keeps the two fields equal in that case.
`strSrc` records whether the decode step went through `json.loads` (fresh
object, `arguments` untouched). -/
def withParsed (strSrc : Bool) (tc : ToolCall) (v : JValue) : ToolCall :=
  if strSrc then { tc with parsed_arguments := some v }
  else { tc with parsed_arguments := some v, arguments := v }

/-- Net effect of the cleanup loop
`for extra_param in (present - set(tool.PARAMETERS.keys())): del
tool_call.parsed_arguments[extra_param]`: exactly the undeclared keys are
deleted (the set's iteration order does not affect the resulting dict). -/
def stripExtras (declared : List String) (m : List (String × JValue)) :
    List (String × JValue) :=
  m.filter (fun kv => declared.contains kv.1)

/-- Result of the casting loop over `tool.PARAMETERS`: the finished dict, or
the failure kind of the first failing `float()` together with the dict's
partially-mutated state at that point. -/
inductive CastResult where
  | done (m : List (String × JValue))
  | failedValue (offending : String) (m : List (String × JValue))
  | failedType (tyName : String) (m : List (String × JValue))

/-- The casting loop: `for param in tool.PARAMETERS: if param in
parsed_arguments and tool.PARAMETERS[param][0] == "number":
parsed_arguments[param] = float(parsed_arguments[param])`. -/
def castLoop (ps : List (String × String × String))
    (m : List (String × JValue)) : CastResult :=
  match ps with
  | [] => .done m
  | (p, ty, _) :: rest =>
    match objFind? m p with
    | none => castLoop rest m
    | some v =>
      if ty = "number" then
        match pyFloat v with
        | .ok q => castLoop rest (objSet m p (.num q))
        | .error (.valueErr s) => .failedValue s m
        | .error (.typeErr ty2) => .failedType ty2 m
      else castLoop rest m

/-- The part of `parse_tool_arguments` after the decode step assigned
`parsed_arguments` the value `v` (with `strSrc` recording whether `v` came
from `json.loads` on a string): resolve the tool name, check required
parameters, strip extras, cast number parameters. -/
def parseDecoded (tools : List (String × Tool)) (tc : ToolCall)
    (strSrc : Bool) (v : JValue) : ParseOutcome :=
  let tc1 := withParsed strSrc tc v
  match lookupTool tools tc.name with
  | none =>
    .errored (ToolResult.error_for_call tc1
      (.toolNotFound tc.name (tools.map Prod.fst))) tc1
  | some tool =>
    match v with
    | .obj m =>
      let missing := tool.REQUIRED_PARAMETERS.filter
        (fun p => !(objKeys m).contains p)
      if missing.isEmpty then
        let stripped := stripExtras tool.paramNames m
        match castLoop tool.PARAMETERS stripped with
        | .done final => .ok (withParsed strSrc tc (.obj final))
        | .failedValue s mid =>
          -- `float()` raised `ValueError`: caught, reported as a ToolResult
          let tc2 := withParsed strSrc tc (.obj mid)
          .errored (ToolResult.error_for_call tc2 (.typeErr tc.name s)) tc2
        | .failedType ty mid =>
          -- `float()` raised `TypeError`: not caught, propagates
          .raised (.typeError ty) (withParsed strSrc tc (.obj mid))
      else
        .errored (ToolResult.error_for_call tc1
          (.missingParams tc.name missing)) tc1
    | _ =>
      -- `set(tool_call.parsed_arguments.keys())` on a non-mapping:
      -- uncaught AttributeError
      .raised (.attributeError "keys") tc1

/-- `Backend.parse_tool_arguments` (src/nyuctf_multiagent/backends/backend.py,
lines 59-100).  The guard is Python truthiness of `parsed_arguments`; the
decode step applies `json.loads` only when `arguments` is a string. -/
def parse_tool_arguments (tools : List (String × Tool)) (tc : ToolCall) :
    ParseOutcome :=
  if optTruthy tc.parsed_arguments then .ok tc
  else
    match tc.arguments with
    | .str s =>
      match json_loads s with
      | none =>
        .errored (ToolResult.error_for_call tc (.jsonDecodeErr tc.name s)) tc
      | some v => parseDecoded tools tc true v
    | v => parseDecoded tools tc false v

/-! ### Conversation model

`conversation.py` is not under `src/`; the message shape below is modelled
from the spec (§3) and from the attributes the adapters read
(`m.role`, `m.content`, `m.tool_data`). -/

/-- Modelled from the spec: message roles (§3); `value` is the wire string
used by the OpenAI-style adapters (`m.role.value`). -/
inductive MessageRole where
  | SYSTEM
  | USER
  | ASSISTANT
  | OBSERVATION
  deriving DecidableEq

def MessageRole.value : MessageRole → String
  | .SYSTEM => "system"
  | .USER => "user"
  | .ASSISTANT => "assistant"
  | .OBSERVATION => "observation"

/-- The payload of `m.tool_data`: a ToolCall on ASSISTANT turns, a ToolResult
on OBSERVATION turns.  The adapters access variant-specific attributes, so a
mismatched variant surfaces as `AttributeError`. -/
inductive ToolData where
  | call (tc : ToolCall)
  | result (tr : ToolResult)

/-- Modelled from the spec: one conversation turn (§3) — role, optional text
content, optional tool payload. -/
structure Message where
  role : MessageRole
  content : Option String := none
  tool_data : Option ToolData := none

/-- Python `x or default` on an optional string (empty string is falsy). -/
def pyOrStr (o : Option String) (dflt : String) : String :=
  match o with
  | some s => if s = "" then dflt else s
  | none => dflt

/-! ### OpenAI-style adapters (`openai_backend.py`, `together_backend.py`)

The vendor SDK call is external I/O; it is modelled as an explicit
`VendorOutcome` argument: either the response object or the exception the
call raised. -/

/-- One native chat message as built by the OpenAI-style formatting loops
(a plain dict; absent keys are `none`). -/
structure OAINativeMsg where
  role : String
  content : Option String := none
  tool_call_id : Option String := none
  name : Option String := none
  /-- `tool_calls`: list of `(id, function.name, function.arguments)` -/
  tool_calls : Option (List (String × String × JValue)) := none

/-- `OpenAIBackend.send`, formatting loop (lines 53-72). -/
def formatOpenAIMessage (m : Message) : Except PyExn OAINativeMsg :=
  match m.role with
  | .OBSERVATION =>
    match m.tool_data with
    | some (.result tr) =>
      .ok { role := "tool", content := some (jsonDumps (tr.result.getD .null)),
            tool_call_id := some tr.id }
    | _ => .error (.attributeError "result")
  | .ASSISTANT =>
    match m.tool_data with
    | none => .ok { role := MessageRole.ASSISTANT.value, content := m.content }
    | some (.call tc) =>
      .ok { role := MessageRole.ASSISTANT.value, content := m.content,
            tool_calls := some [(tc.id, tc.name, tc.arguments)] }
    | some (.result _) => .error (.attributeError "arguments")
  | r => .ok { role := r.value, content := m.content }

def formatOpenAI : List Message → Except PyExn (List OAINativeMsg)
  | [] => .ok []
  | m :: ms => do
    let x ← formatOpenAIMessage m
    let xs ← formatOpenAI ms
    .ok (x :: xs)

/-- `TogetherBackend.send`, formatting loop (lines 80-100): identical to the
OpenAI one except that the tool-result turn also carries the tool name. -/
def formatTogetherMessage (m : Message) : Except PyExn OAINativeMsg :=
  match m.role with
  | .OBSERVATION =>
    match m.tool_data with
    | some (.result tr) =>
      .ok { role := "tool", content := some (jsonDumps (tr.result.getD .null)),
            tool_call_id := some tr.id, name := some tr.name }
    | _ => .error (.attributeError "result")
  | .ASSISTANT =>
    match m.tool_data with
    | none => .ok { role := MessageRole.ASSISTANT.value, content := m.content }
    | some (.call tc) =>
      .ok { role := MessageRole.ASSISTANT.value, content := m.content,
            tool_calls := some [(tc.id, tc.name, tc.arguments)] }
    | some (.result _) => .error (.attributeError "arguments")
  | r => .ok { role := r.value, content := m.content }

def formatTogether : List Message → Except PyExn (List OAINativeMsg)
  | [] => .ok []
  | m :: ms => do
    let x ← formatTogetherMessage m
    let xs ← formatTogether ms
    .ok (x :: xs)

/-- `response.usage` of an OpenAI-style chat completion (optional in the
SDK). -/
structure OAIUsage where
  prompt_tokens : Nat
  completion_tokens : Nat
  deriving DecidableEq

structure OAIFunction where
  name : String
  arguments : String

structure OAICall where
  id : String
  function : OAIFunction

structure OAIMessage where
  content : Option String := none
  tool_calls : Option (List OAICall) := none

structure OAIChoice where
  message : OAIMessage

/-- OpenAI-style chat completion response; Together's response object has the
same shape. -/
structure OAIResponse where
  choices : List OAIChoice
  usage : Option OAIUsage := none

/-- `OpenAIBackend.calculate_cost` (lines 49-50):
`self.in_price * response.usage.prompt_tokens + self.out_price *
response.usage.completion_tokens`.  There is no None-check: a missing usage
object raises `AttributeError`.  `TogetherBackend.calculate_cost`
(lines 76-77) is identical. -/
def openaiCalculateCost (in_price out_price : ℚ) (response : OAIResponse) :
    Except PyExn ℚ :=
  match response.usage with
  | none => .error (.attributeError "prompt_tokens")
  | some u =>
    .ok (in_price * u.prompt_tokens + out_price * u.completion_tokens)

/-- The vendor network call, as seen from `send`: it either returns a
response object or raises. -/
inductive VendorOutcome (α : Type) where
  | raise (e : PyExn)
  | success (r : α)

/-- The neutral response (`backend.py`, `BackendResponse`): dataclass with
defaults `content=None, error=None, tool_call=None, cost=0`.  The error
string is modelled structurally as (f-string prefix, exception). -/
structure BackendResponse where
  content : Option String := none
  error : Option (String × PyExn) := none
  tool_call : Option ToolCall := none
  cost : ℚ := 0

/-- What a call to `send` does: return a `BackendResponse`, or let an
exception escape. -/
inductive SendOutcome where
  | returned (r : BackendResponse)
  | raised (e : PyExn)

/-- `OpenAIBackend.send` (lines 52-88).  The `try` block covers the vendor
call, the cost computation and `response.choices[0].message`; the only
`except` clause is `except BadRequestError`. -/
def openaiSend (in_price out_price : ℚ) (messages : List Message)
    (outcome : VendorOutcome OAIResponse) : SendOutcome :=
  match formatOpenAI messages with
  | .error e => .raised e
  | .ok _ =>
    match outcome with
    | .raise e =>
      if e = .badRequestError then
        .returned { error := some ("Backend Error", e) }
      else .raised e
    | .success response =>
      match openaiCalculateCost in_price out_price response with
      | .error e => .raised e
      | .ok cost =>
        match response.choices with
        | [] => .raised .indexError
        | choice :: _ =>
          let msg := choice.message
          let tool_call : Option ToolCall :=
            match msg.tool_calls with
            | some (c :: _) =>
              some { name := c.function.name, id := c.id,
                     arguments := .str c.function.arguments }
            | _ => none
          .returned { content := msg.content, tool_call := tool_call,
                      cost := cost }

/-- `TogetherBackend.send` (lines 79-116): same structure, but the only
`except` clause is `except InvalidRequestError`. -/
def togetherSend (in_price out_price : ℚ) (messages : List Message)
    (outcome : VendorOutcome OAIResponse) : SendOutcome :=
  match formatTogether messages with
  | .error e => .raised e
  | .ok _ =>
    match outcome with
    | .raise e =>
      if e = .invalidRequestError then
        .returned { error := some ("Backend Error", e) }
      else .raised e
    | .success response =>
      match openaiCalculateCost in_price out_price response with
      | .error e => .raised e
      | .ok cost =>
        match response.choices with
        | [] => .raised .indexError
        | choice :: _ =>
          let msg := choice.message
          let tool_call : Option ToolCall :=
            match msg.tool_calls with
            | some (c :: _) =>
              some { name := c.function.name, id := c.id,
                     arguments := .str c.function.arguments }
            | _ => none
          .returned { content := msg.content, tool_call := tool_call,
                      cost := cost }

/-! ### Gemini / Vertex AI adapters (`gemini_backend.py`, `vertexai_backend.py`) -/

/-- One native content part as built by the Gemini/Vertex formatting loops. -/
inductive GPartOut where
  | text (s : String)
  /-- `Part.from_function_response(name=..., response={"result": result})` -/
  | functionResponse (name : String) (result : Option JValue)
  /-- `Part(function_call=FunctionCall(name, args), thought_signature=sig)` -/
  | functionCall (name : String) (args : JValue) (thought_signature : String)

structure GContentOut where
  role : String
  parts : List GPartOut

/-- Result of formatting one message in the Gemini/Vertex loop: either it
sets the system-instruction slot (`system = m.content; continue`) or it
emits one native content item. -/
inductive GFormatted where
  | setSystem (content : Option String)
  | emit (c : GContentOut)

/-- The vendor-defined placeholder substituted when a function-call turn has
no usable thought signature (`gemini_backend.py` line 100,
`vertexai_backend.py` line 118). -/
def skipThoughtSignaturePlaceholder : String := "skip_thought_signature_validator"

/-- The decode of `args = m.tool_data.arguments; if isinstance(args, str):
args = json.loads(args)` — a decode failure here is OUTSIDE any try block and
propagates. -/
def geminiArgsOf (v : JValue) : Except PyExn JValue :=
  match v with
  | .str s =>
    match json_loads s with
    | none => .error (.jsonDecodeError s)
    | some a => .ok a
  | a => .ok a

/-- `GeminiBackend.send`, formatting loop (lines 77-115), one message.
`thought_sig = getattr(tool_data, 'thought_signature', None)` followed by
`if not thought_sig:` means an absent OR empty signature is replaced by the
placeholder. -/
def formatGeminiMessage (m : Message) : Except PyExn GFormatted :=
  match m.role with
  | .SYSTEM => .ok (.setSystem m.content)
  | .OBSERVATION =>
    match m.tool_data with
    | some (.result tr) =>
      .ok (.emit { role := "user", parts := [.functionResponse tr.name tr.result] })
    | some (.call _) => .error (.attributeError "result")
    | none => .error (.attributeError "name")
  | .ASSISTANT =>
    match m.tool_data with
    | some (.call tc) =>
      match geminiArgsOf tc.arguments with
      | .error e => .error e
      | .ok args =>
        let sig :=
          match tc.thought_signature with
          | some s => if s = "" then skipThoughtSignaturePlaceholder else s
          | none => skipThoughtSignaturePlaceholder
        .ok (.emit { role := "model", parts := [.functionCall tc.name args sig] })
    | some (.result _) => .error (.attributeError "arguments")
    | none =>
      .ok (.emit { role := "model", parts := [.text (pyOrStr m.content "No response")] })
  | .USER =>
    .ok (.emit { role := "user", parts := [.text (pyOrStr m.content "")] })

/-- The whole Gemini formatting loop: later SYSTEM messages overwrite the
system slot; other messages append in order. -/
def formatGeminiAux (system : Option String) (acc : List GContentOut) :
    List Message → Except PyExn (Option String × List GContentOut)
  | [] => .ok (system, acc.reverse)
  | m :: ms =>
    match formatGeminiMessage m with
    | .error e => .error e
    | .ok (.setSystem c) => formatGeminiAux c acc ms
    | .ok (.emit cont) => formatGeminiAux system (cont :: acc) ms

def formatGemini (ms : List Message) : Except PyExn (Option String × List GContentOut) :=
  formatGeminiAux none [] ms

/-- `VertexAIBackend.send`, formatting loop (lines 95-133): the same
per-message rules as the Gemini adapter, including the thought-signature
placeholder substitution. -/
def formatVertexMessage (m : Message) : Except PyExn GFormatted :=
  match m.role with
  | .SYSTEM => .ok (.setSystem m.content)
  | .OBSERVATION =>
    match m.tool_data with
    | some (.result tr) =>
      .ok (.emit { role := "user", parts := [.functionResponse tr.name tr.result] })
    | some (.call _) => .error (.attributeError "result")
    | none => .error (.attributeError "name")
  | .ASSISTANT =>
    match m.tool_data with
    | some (.call tc) =>
      match geminiArgsOf tc.arguments with
      | .error e => .error e
      | .ok args =>
        let sig :=
          match tc.thought_signature with
          | some s => if s = "" then skipThoughtSignaturePlaceholder else s
          | none => skipThoughtSignaturePlaceholder
        .ok (.emit { role := "model", parts := [.functionCall tc.name args sig] })
    | some (.result _) => .error (.attributeError "arguments")
    | none =>
      .ok (.emit { role := "model", parts := [.text (pyOrStr m.content "No response")] })
  | .USER =>
    .ok (.emit { role := "user", parts := [.text (pyOrStr m.content "")] })

def formatVertexAux (system : Option String) (acc : List GContentOut) :
    List Message → Except PyExn (Option String × List GContentOut)
  | [] => .ok (system, acc.reverse)
  | m :: ms =>
    match formatVertexMessage m with
    | .error e => .error e
    | .ok (.setSystem c) => formatVertexAux c acc ms
    | .ok (.emit cont) => formatVertexAux system (cont :: acc) ms

def formatVertex (ms : List Message) : Except PyExn (Option String × List GContentOut) :=
  formatVertexAux none [] ms

/-! Gemini response objects (google-genai SDK shapes, all fields optional). -/

structure GFunctionCall where
  name : String
  args : Option (List (String × JValue)) := none

structure GRespPart where
  text : Option String := none
  function_call : Option GFunctionCall := none
  thought_signature : Option String := none

structure GRespContent where
  parts : Option (List GRespPart) := none

structure GCandidate where
  content : Option GRespContent := none

structure GUsage where
  prompt_token_count : Option Nat := none
  candidates_token_count : Option Nat := none
  deriving DecidableEq

structure GeminiResponse where
  candidates : Option (List GCandidate) := none
  usage_metadata : Option GUsage := none

/-- `GeminiBackend.calculate_cost` (lines 63-71): a missing usage object
gives 0, and each missing token count defaults to 0
(`usage.prompt_token_count or 0`).  `VertexAIBackend.calculate_cost`
(lines 81-89) is identical. -/
def geminiCalculateCost (in_price out_price : ℚ) (response : GeminiResponse) : ℚ :=
  match response.usage_metadata with
  | some u =>
    in_price * (u.prompt_token_count.getD 0) + out_price * (u.candidates_token_count.getD 0)
  | none => 0

/-- The loop over `candidates[0].content.parts` (lines 132-144): the LAST
part with non-empty text wins the content slot, and the LAST part with a
function_call wins the tool_call slot.  `id` is `str(uuid.uuid4())`,
supplied here as the `fresh_id` parameter. -/
def geminiExtractLoop (fresh_id : String) (content : Option String)
    (tool_call : Option ToolCall) : List GRespPart → Option String × Option ToolCall
  | [] => (content, tool_call)
  | p :: rest =>
    let content2 :=
      match p.text with
      | some t => if t = "" then content else some t
      | none => content
    let tool_call2 :=
      match p.function_call with
      | some fc =>
        some { name := fc.name, id := fresh_id,
               arguments := .obj (fc.args.getD []),
               thought_signature := p.thought_signature }
      | none => tool_call
    geminiExtractLoop fresh_id content2 tool_call2 rest

/-- `GeminiBackend.send` (lines 73-149).  The first try block covers the
vendor call and cost computation and catches every exception; the second try
block covers response parsing and also catches every exception. -/
def geminiSend (in_price out_price : ℚ) (fresh_id : String)
    (messages : List Message) (outcome : VendorOutcome GeminiResponse) :
    SendOutcome :=
  match formatGemini messages with
  | .error e => .raised e
  | .ok _ =>
    match outcome with
    | .raise e => .returned { error := some ("Gemini API Error", e) }
    | .success response =>
      let cost := geminiCalculateCost in_price out_price response
      match response.candidates with
      | none => .returned {}
      | some [] => .returned {}
      | some (cand :: _) =>
        match cand.content with
        | none =>
          -- `candidates[0].content.parts` on None: AttributeError, caught
          .returned { error := some ("Response parsing error", .attributeError "parts") }
        | some c =>
          match c.parts with
          | none =>
            -- `for part in None`: TypeError, caught
            .returned { error := some ("Response parsing error", .typeError "NoneType") }
          | some parts =>
            let (content, tool_call) := geminiExtractLoop fresh_id none none parts
            .returned { content := content, tool_call := tool_call, cost := cost }

/-! ### Constructor / pricing table (`Backend.__init__`, `backends/__init__.py`) -/

/-- One entry of `models.yaml` as loaded by `load_models_config`: the
`backend` key plus the pricing/context fields. -/
structure ModelEntry where
  backend : String
  max_context : Nat
  cost_per_input_token : ℚ
  cost_per_output_token : ℚ
  deriving DecidableEq

/-- One entry of `MODEL_INFO`, built in `backends/__init__.py` by
`{k: v for k, v in info.items() if k != 'backend'}` — the `backend` key is
removed. -/
structure ModelInfoEntry where
  max_context : Nat
  cost_per_input_token : ℚ
  cost_per_output_token : ℚ
  deriving DecidableEq

def stripBackendKey (e : ModelEntry) : ModelInfoEntry :=
  { max_context := e.max_context,
    cost_per_input_token := e.cost_per_input_token,
    cost_per_output_token := e.cost_per_output_token }

/-- `MODEL_INFO = {name: {k: v for k, v in info.items() if k != 'backend'}
for name, info in _models_config.items()}`. -/
def buildModelInfo (cfg : List (String × ModelEntry)) :
    List (String × ModelInfoEntry) :=
  cfg.map (fun ne => (ne.1, stripBackendKey ne.2))

/-- `info.get('backend', self.NAME)` evaluated on a `MODEL_INFO` entry: the
comprehension above removed the `'backend'` key, so `.get` always returns
the default. -/
def infoGetBackend (_info : ModelInfoEntry) (dflt : String) : String := dflt

def lookupModelInfo (table : List (String × ModelInfoEntry)) (nm : String) :
    Option ModelInfoEntry :=
  match table with
  | [] => none
  | (k, e) :: rest => if k = nm then some e else lookupModelInfo rest nm

/-- Outcome of `Backend.__init__` (backend.py lines 30-51).  `keyError`
records the data interpolated into the KeyError message: the requested
model, `available[:10]`, and whether the `'...'` suffix was appended
(`len(available) > 10`). -/
inductive InitOutcome where
  | notImplementedError
  | keyError (modelName : String) (listed : List String) (truncated : Bool)
  | ok (in_price out_price : ℚ)
  deriving DecidableEq

/-- `Backend.__init__`: fail if `NAME` is unset, fail with a `KeyError`
listing available models if the model is absent from `MODEL_INFO`, otherwise
record the prices (`float(...)` of the table entries).  `classMODELS` is
`getattr(self.__class__, 'MODELS', {})` (the class-level model dict of the
Ollama/OpenRouter backends; empty for the others). -/
def backendInit (NAME : String) (classMODELS : List String) (model : String)
    (MODEL_INFO : List (String × ModelInfoEntry)) : InitOutcome :=
  if NAME = "base" then .notImplementedError
  else
    match lookupModelInfo MODEL_INFO model with
    | none =>
      let available := (MODEL_INFO.filter
        (fun me => infoGetBackend me.2 NAME == NAME || classMODELS.contains me.1)).map Prod.fst
      .keyError model (available.take 10) (decide (available.length > 10))
    | some info => .ok info.cost_per_input_token info.cost_per_output_token

/-! ### Derived definitions used in claim statements -/

/-- The decode step of `parse_tool_arguments` in isolation: `json.loads` for
string arguments, the value itself otherwise (`none` = decode failure). -/
def decodedValue (tc : ToolCall) : Option JValue :=
  match tc.arguments with
  | .str s => json_loads s
  | v => some v

/-- Whether `type(tool_call.arguments) == str`. -/
def isStrArguments (tc : ToolCall) : Bool :=
  match tc.arguments with
  | .str _ => true
  | _ => false

/-- The `parsed_arguments` carried by a successful validation outcome. -/
def parsedOf : ParseOutcome → Option JValue
  | .ok tc => tc.parsed_arguments
  | .errored _ _ => none
  | .raised _ _ => none

/-- Entry-wise restatement of the strip-then-cast pipeline: every value whose
parameter is declared `"number"` is replaced by its `float()` coercion (the
error branch is unreachable whenever `castLoop` succeeded on the same
dict). -/
def typeOfParam (ps : List (String × String × String)) (k : String) :
    Option String :=
  match ps with
  | [] => none
  | (p, ty, _) :: rest => if p = k then some ty else typeOfParam rest k

def coerceDeclared (types : List (String × String × String))
    (m : List (String × JValue)) : List (String × JValue) :=
  m.map (fun kv =>
    match typeOfParam types kv.1 with
    | some tyTag =>
      if tyTag = "number" then
        match pyFloat kv.2 with
        | .ok q => (kv.1, .num q)
        | .error _ => kv
      else kv
    | none => kv)

/-- Follows the spec's words (C6): "the JSON-decoded object with exactly the
keys outside the tool's declared parameter set removed" — and nothing else
changed. -/
def decodedMinusExtras (tool : Tool) (s : String) : Option JValue :=
  (json_loads s).map (fun v =>
    match v with
    | .obj m => .obj (m.filter (fun kv => tool.paramNames.contains kv.1))
    | w => w)

/-- Tool call carried by a `send` outcome, when one was returned. -/
def sendToolCall : SendOutcome → Option ToolCall
  | .returned r => r.tool_call
  | .raised _ => none

/-- Follows the spec's words (C2): "the first tool invocation in the
response" — for a Gemini response, the first function_call part of the first
candidate. -/
def geminiFirstFunctionCallName (resp : GeminiResponse) : Option String :=
  match resp.candidates with
  | some (cand :: _) =>
    (match cand.content with
     | some c =>
       match (c.parts.getD []).find? (fun p => p.function_call.isSome) with
       | some p => p.function_call.map GFunctionCall.name
       | none => none
     | none => none)
  | _ => none

/-- The last part carrying a function_call — what the Gemini/Vertex
extraction loop actually keeps. -/
def lastFunctionCallPart (parts : List GRespPart) : Option GRespPart :=
  (parts.filter (fun p => p.function_call.isSome)).getLast?

/-- The ToolCall the Gemini extraction loop builds from one response part
(when that part carries a function_call). -/
def mkGeminiToolCall (fresh_id : String) (p : GRespPart) : Option ToolCall :=
  p.function_call.map (fun fc =>
    { name := fc.name, id := fresh_id, arguments := .obj (fc.args.getD []),
      thought_signature := p.thought_signature })

/-- The vendor that owns a model according to the raw `models.yaml`
configuration (the `backend` key, before `MODEL_INFO` strips it). -/
def configBackendOf (cfg : List (String × ModelEntry)) (nm : String) :
    Option String :=
  match cfg with
  | [] => none
  | (k, e) :: rest => if k = nm then some e.backend else configBackendOf rest nm

/-! ### Helper lemmas -/

theorem withParsed_name (b : Bool) (tc : ToolCall) (v : JValue) :
    (withParsed b tc v).name = tc.name := by
  cases b <;> rfl

theorem withParsed_id (b : Bool) (tc : ToolCall) (v : JValue) :
    (withParsed b tc v).id = tc.id := by
  cases b <;> rfl

theorem withParsed_parsed (b : Bool) (tc : ToolCall) (v : JValue) :
    (withParsed b tc v).parsed_arguments = some v := by
  cases b <;> rfl

theorem withParsed_true_arguments (tc : ToolCall) (v : JValue) :
    (withParsed true tc v).arguments = tc.arguments := rfl

theorem withParsed_false_arguments (tc : ToolCall) (v : JValue) :
    (withParsed false tc v).arguments = v := rfl

theorem withParsed_true_def (tc : ToolCall) (v : JValue) :
    withParsed true tc v = { tc with parsed_arguments := some v } := rfl

theorem withParsed_false_def (tc : ToolCall) (v : JValue) :
    withParsed false tc v = { tc with parsed_arguments := some v, arguments := v } := rfl

/-- Overwriting `parsed_arguments` with the value it already holds is the
identity. -/
theorem toolCall_update_parsed_self (tc : ToolCall) (v : JValue)
    (h : tc.parsed_arguments = some v) :
    ({ tc with parsed_arguments := some v } : ToolCall) = tc := by
  cases tc
  simp only [ToolCall.mk.injEq, and_self_iff, and_true, true_and]
  exact h.symm

/-- Dispatching `parse_tool_arguments` through `decodedValue`. -/
theorem parse_eq_parseDecoded (tools : List (String × Tool)) (tc : ToolCall)
    (v : JValue) (hT : optTruthy tc.parsed_arguments = false)
    (hdec : decodedValue tc = some v) :
    parse_tool_arguments tools tc = parseDecoded tools tc (isStrArguments tc) v := by
  obtain ⟨n, i, a, p, t⟩ := tc
  simp only [parse_tool_arguments, hT, Bool.false_eq_true, if_false]
  simp only [decodedValue] at hdec
  cases a
  case str s =>
    simp only at hdec
    simp [isStrArguments, hdec]
  all_goals
    simp only [Option.some.injEq] at hdec
    subst hdec
    simp [isStrArguments]

theorem objKeys_objSet (m : List (String × JValue)) (k : String) (v : JValue) :
    objKeys (objSet m k v) = objKeys m := by
  induction m with
  | nil => rfl
  | cons kv rest ih =>
    simp only [objSet, objKeys, List.map_cons] at *
    by_cases h : kv.1 = k <;> simp [h, ih]

theorem castLoop_keys (ps : List (String × String × String))
    (m final : List (String × JValue)) (h : castLoop ps m = .done final) :
    objKeys final = objKeys m := by
  induction ps generalizing m with
  | nil =>
    simp only [castLoop, CastResult.done.injEq] at h
    rw [h]
  | cons p rest ih =>
    obtain ⟨pn, pty, pdesc⟩ := p
    simp only [castLoop] at h
    split at h
    · exact ih m h
    · split at h
      · split at h
        · have h2 := ih _ h
          rw [h2, objKeys_objSet]
        · exact CastResult.noConfusion h
        · exact CastResult.noConfusion h
      · exact ih m h

theorem castLoop_nil (ps : List (String × String × String)) :
    castLoop ps [] = .done [] := by
  induction ps with
  | nil => rfl
  | cons p rest ih =>
    obtain ⟨pn, pty, pdesc⟩ := p
    simp [castLoop, objFind?, ih]

theorem objFind?_eq_none_iff (m : List (String × JValue)) (k : String) :
    objFind? m k = none ↔ ∀ kv ∈ m, kv.1 ≠ k := by
  induction m with
  | nil => simp [objFind?]
  | cons kv rest ih =>
    obtain ⟨k0, v0⟩ := kv
    by_cases h : k0 = k <;> simp [objFind?, h, ih]

theorem objFind?_of_mem (m : List (String × JValue)) (kv : String × JValue)
    (hN : (objKeys m).Nodup) (hmem : kv ∈ m) : objFind? m kv.1 = some kv.2 := by
  induction m with
  | nil => cases hmem
  | cons hd rest ih =>
    obtain ⟨k0, v0⟩ := hd
    simp only [objKeys, List.map_cons, List.nodup_cons] at hN
    obtain ⟨hk0, hN'⟩ := hN
    rcases List.mem_cons.mp hmem with h | h
    · subst h
      simp [objFind?]
    · have hne : k0 ≠ kv.1 := by
        intro he
        exact hk0 (he ▸ (List.mem_map.mpr ⟨kv, h, rfl⟩))
      simp only [objFind?, if_neg hne]
      exact ih hN' h

theorem objKeys_stripExtras (d : List String) (m : List (String × JValue)) :
    objKeys (stripExtras d m) = (objKeys m).filter (fun k => d.contains k) := by
  induction m with
  | nil => rfl
  | cons kv rest ih =>
    by_cases h : d.contains kv.1 = true <;>
      simp only [stripExtras, objKeys, List.filter_cons, List.map_cons] at * <;>
      simp_all

theorem typeOfParam_eq_none (ps : List (String × String × String)) (k : String)
    (h : k ∉ ps.map Prod.fst) : typeOfParam ps k = none := by
  induction ps with
  | nil => rfl
  | cons p rest ih =>
    obtain ⟨pn, ty, d⟩ := p
    simp only [List.map_cons, List.mem_cons, not_or] at h
    simp only [typeOfParam]
    rw [if_neg (fun he => h.1 he.symm)]
    exact ih h.2

/-- When the casting loop finishes, the resulting dict is the entry-wise
recast of its input (parameter names and dict keys are duplicate-free, as
they come from Python dicts). -/
theorem castLoop_done_eq (ps : List (String × String × String))
    (m final : List (String × JValue))
    (hNm : (objKeys m).Nodup) (hNp : (ps.map Prod.fst).Nodup)
    (h : castLoop ps m = .done final) :
    final = coerceDeclared ps m := by
  induction ps generalizing m with
  | nil =>
    simp only [castLoop, CastResult.done.injEq] at h
    subst h
    simp [coerceDeclared, typeOfParam]
  | cons p rest ih =>
    obtain ⟨pn, pty, pdesc⟩ := p
    simp only [List.map_cons, List.nodup_cons] at hNp
    obtain ⟨hpn, hNp2⟩ := hNp
    simp only [castLoop] at h
    split at h
    next hf =>
      rw [ih m hNm hNp2 h]
      unfold coerceDeclared
      apply List.map_congr_left
      intro kv _hkv
      have hne : kv.1 ≠ pn := (objFind?_eq_none_iff m pn).mp hf kv _hkv
      simp only [typeOfParam]
      rw [if_neg (fun he => hne he.symm)]
    next v hf =>
      split at h
      next hty =>
        subst hty
        split at h
        next q hfl =>
          have hNm2 : (objKeys (objSet m pn (.num q))).Nodup := by
            rw [objKeys_objSet]; exact hNm
          rw [ih _ hNm2 hNp2 h]
          unfold coerceDeclared objSet
          rw [List.map_map]
          apply List.map_congr_left
          rintro ⟨k1, v1⟩ hkv
          simp only [Function.comp_apply]
          by_cases hk : k1 = pn
          · subst hk
            have hv : v1 = v := by
              have h2 := objFind?_of_mem m (k1, v1) hNm hkv
              rw [h2] at hf
              exact Option.some.inj hf
            subst hv
            simp [typeOfParam, typeOfParam_eq_none rest k1 hpn, hfl]
          · simp only [if_neg hk, typeOfParam]
            rw [if_neg (fun he => hk he.symm)]
        next s hfl => exact CastResult.noConfusion h
        next s hfl => exact CastResult.noConfusion h
      next hty =>
        rw [ih m hNm hNp2 h]
        unfold coerceDeclared
        apply List.map_congr_left
        rintro ⟨k1, v1⟩ hkv
        by_cases hk : k1 = pn
        · subst hk
          simp [typeOfParam, typeOfParam_eq_none rest k1 hpn, hty]
        · simp only [typeOfParam]
          rw [if_neg (fun he => hk he.symm)]

theorem parseDecoded_ok_intro (tools : List (String × Tool)) (tc : ToolCall)
    (b : Bool) (tool : Tool) (m final : List (String × JValue))
    (hlk : lookupTool tools tc.name = some tool)
    (hmiss : (tool.REQUIRED_PARAMETERS.filter
      (fun p => !(objKeys m).contains p)).isEmpty = true)
    (hcast : castLoop tool.PARAMETERS (stripExtras tool.paramNames m) = .done final) :
    parseDecoded tools tc b (.obj m) = .ok (withParsed b tc (.obj final)) := by
  simp only [parseDecoded, hlk]
  rw [hmiss, if_pos rfl, hcast]

theorem parseDecoded_ok_elim (tools : List (String × Tool)) (tc : ToolCall)
    (b : Bool) (v : JValue) (tc' : ToolCall)
    (h : parseDecoded tools tc b v = .ok tc') :
    ∃ tool m final,
      lookupTool tools tc.name = some tool ∧ v = .obj m ∧
      (tool.REQUIRED_PARAMETERS.filter
        (fun p => !(objKeys m).contains p)).isEmpty = true ∧
      castLoop tool.PARAMETERS (stripExtras tool.paramNames m) = .done final ∧
      tc' = withParsed b tc (.obj final) := by
  simp only [parseDecoded] at h
  split at h
  · exact ParseOutcome.noConfusion h
  next tool hlk =>
    split at h
    next m =>
      split at h
      next hmiss =>
        split at h
        next final hcast =>
          exact ⟨tool, m, final, hlk, rfl, hmiss, hcast, (ParseOutcome.ok.inj h).symm⟩
        next s mid hcast => exact ParseOutcome.noConfusion h
        next s mid hcast => exact ParseOutcome.noConfusion h
      next hmiss => exact ParseOutcome.noConfusion h
    all_goals exact ParseOutcome.noConfusion h

/-! ## Claim theorems -/

/-- **C3.**  For every ToolCall whose decoded arguments lack at least one
required parameter of the resolved tool, the validator returns a ToolResult
error whose `missing` payload (interpolated into the message) contains
exactly the required-minus-present parameter names — in particular every
missing name — and the ToolCall's `parsed_arguments` is left holding the
complete decoded mapping, not a partially stripped or coerced one. -/
theorem C3_missing_params_reported (tools : List (String × Tool)) (tc : ToolCall)
    (tool : Tool) (m : List (String × JValue))
    (hT : optTruthy tc.parsed_arguments = false)
    (hdec : decodedValue tc = some (.obj m))
    (hlk : lookupTool tools tc.name = some tool)
    (hmiss : (tool.REQUIRED_PARAMETERS.filter
      (fun p => !(objKeys m).contains p)).isEmpty = false) :
    parse_tool_arguments tools tc =
      .errored
        { id := tc.id, name := tc.name, result := none,
          error := some (.missingParams tc.name
            (tool.REQUIRED_PARAMETERS.filter (fun p => !(objKeys m).contains p))) }
        (withParsed (isStrArguments tc) tc (.obj m))
    ∧ (withParsed (isStrArguments tc) tc (.obj m)).parsed_arguments = some (.obj m)
    ∧ ∀ p : String,
        p ∈ tool.REQUIRED_PARAMETERS.filter (fun q => !(objKeys m).contains q) ↔
          p ∈ tool.REQUIRED_PARAMETERS ∧ p ∉ objKeys m := by
  refine ⟨?_, withParsed_parsed _ _ _, ?_⟩
  · rw [parse_eq_parseDecoded tools tc _ hT hdec]
    simp only [parseDecoded, hlk]
    rw [hmiss, if_neg Bool.false_ne_true]
    simp only [ToolResult.error_for_call, withParsed_id, withParsed_name]
  · intro p
    simp [List.mem_filter]

theorem C3_missing_params_reported_witness :
    parse_tool_arguments
        [("play", ⟨"play", "d", [("a", "string", "da"), ("b", "number", "db")],
          ["a", "b"]⟩)]
        ⟨"play", "id7", .str "\x7b\"b\": 1\x7d", none, none⟩ =
      .errored
        { id := "id7", name := "play", result := none,
          error := some (.missingParams "play"
            ((["a", "b"] : List String).filter
              (fun p => !(objKeys [("b", JValue.num (mkRat 1 1))]).contains p))) }
        (withParsed
          (isStrArguments ⟨"play", "id7", .str "\x7b\"b\": 1\x7d", none, none⟩)
          ⟨"play", "id7", .str "\x7b\"b\": 1\x7d", none, none⟩
          (.obj [("b", JValue.num (mkRat 1 1))]))
    ∧ (withParsed
          (isStrArguments ⟨"play", "id7", .str "\x7b\"b\": 1\x7d", none, none⟩)
          ⟨"play", "id7", .str "\x7b\"b\": 1\x7d", none, none⟩
          (.obj [("b", JValue.num (mkRat 1 1))])).parsed_arguments =
        some (.obj [("b", JValue.num (mkRat 1 1))]) :=
  ⟨(C3_missing_params_reported
      [("play", ⟨"play", "d", [("a", "string", "da"), ("b", "number", "db")],
        ["a", "b"]⟩)]
      ⟨"play", "id7", .str "\x7b\"b\": 1\x7d", none, none⟩
      ⟨"play", "d", [("a", "string", "da"), ("b", "number", "db")], ["a", "b"]⟩
      [("b", JValue.num (mkRat 1 1))] rfl (by rfl) (by rfl) (by decide)).1,
   (C3_missing_params_reported
      [("play", ⟨"play", "d", [("a", "string", "da"), ("b", "number", "db")],
        ["a", "b"]⟩)]
      ⟨"play", "id7", .str "\x7b\"b\": 1\x7d", none, none⟩
      ⟨"play", "d", [("a", "string", "da"), ("b", "number", "db")], ["a", "b"]⟩
      [("b", JValue.num (mkRat 1 1))] rfl (by rfl) (by rfl) (by decide)).2.1⟩

/-- **C4 (counterexample).**  The claim says a wrong structural raw value
(list or mapping) for a "number"-declared parameter yields a ToolResult
error "rather than raising"; but `float([])` raises `TypeError`, which the
validator's `except` clauses (JSONDecodeError, ValueError) do not catch, so
`parse_tool_arguments` raises instead of returning an error result. -/
theorem C4_counterexample_structural_type_raises :
    parse_tool_arguments
        [("t", ⟨"t", "d", [("x", "number", "dx")], ["x"]⟩)]
        ⟨"t", "id1", .obj [("x", .arr [])], none, none⟩ =
      .raised (.typeError "list")
        ⟨"t", "id1", .obj [("x", .arr [])], some (.obj [("x", .arr [])]), none⟩ := by
  rfl

/-- **C4 (amended).**  For a tool with a parameter declared "number": the
string "3.14" is coerced to the float 3.14 and validation succeeds; a
non-numeric string yields a ToolResult error naming the tool and quoting the
offending value (the `ValueError` text) rather than raising; but a wrong
structural type (list or mapping) raises an uncaught `TypeError` out of the
validator instead of producing a ToolResult error. -/
theorem C4_amended_number_coercion (tName pName pdesc tdesc cid : String)
    (v : JValue) :
    (v = .str "3.14" →
        parse_tool_arguments [(tName, ⟨tName, tdesc, [(pName, "number", pdesc)], [pName]⟩)]
            ⟨tName, cid, .obj [(pName, v)], none, none⟩ =
          .ok ⟨tName, cid, .obj [(pName, .num (mkRat 157 50))],
               some (.obj [(pName, .num (mkRat 157 50))]), none⟩
        ∧ (mkRat 157 50 : ℚ) = 3.14)
    ∧ (∀ s : String, v = .str s → pyFloatOfString s = none →
        parse_tool_arguments [(tName, ⟨tName, tdesc, [(pName, "number", pdesc)], [pName]⟩)]
            ⟨tName, cid, .obj [(pName, v)], none, none⟩ =
          .errored
            { id := cid, name := tName, result := none,
              error := some (.typeErr tName s) }
            ⟨tName, cid, .obj [(pName, .str s)], some (.obj [(pName, .str s)]), none⟩)
    ∧ (∀ l : List JValue, v = .arr l →
        parse_tool_arguments [(tName, ⟨tName, tdesc, [(pName, "number", pdesc)], [pName]⟩)]
            ⟨tName, cid, .obj [(pName, v)], none, none⟩ =
          .raised (.typeError "list")
            ⟨tName, cid, .obj [(pName, .arr l)], some (.obj [(pName, .arr l)]), none⟩)
    ∧ (∀ o : List (String × JValue), v = .obj o →
        parse_tool_arguments [(tName, ⟨tName, tdesc, [(pName, "number", pdesc)], [pName]⟩)]
            ⟨tName, cid, .obj [(pName, v)], none, none⟩ =
          .raised (.typeError "dict")
            ⟨tName, cid, .obj [(pName, .obj o)], some (.obj [(pName, .obj o)]), none⟩) := by
  have h314 : pyFloatOfString "3.14" = some (mkRat 157 50) := by rfl
  refine ⟨?_, ?_, ?_, ?_⟩
  · intro hv
    subst hv
    constructor
    · simp [parse_tool_arguments, parseDecoded, lookupTool, optTruthy,
            stripExtras, Tool.paramNames, castLoop, objFind?, objKeys, objSet,
            withParsed, pyFloat, h314]
    · rw [Rat.mkRat_eq_div]
      norm_num
  · intro s hv hbad
    subst hv
    simp [parse_tool_arguments, parseDecoded, lookupTool, optTruthy,
          stripExtras, Tool.paramNames, castLoop, objFind?, objKeys, objSet,
          withParsed, pyFloat, hbad, ToolResult.error_for_call]
  · intro l hv
    subst hv
    simp [parse_tool_arguments, parseDecoded, lookupTool, optTruthy,
          stripExtras, Tool.paramNames, castLoop, objFind?, objKeys, objSet,
          withParsed, pyFloat]
  · intro o hv
    subst hv
    simp [parse_tool_arguments, parseDecoded, lookupTool, optTruthy,
          stripExtras, Tool.paramNames, castLoop, objFind?, objKeys, objSet,
          withParsed, pyFloat]

theorem C4_amended_number_coercion_witness :
    (parse_tool_arguments [("t", ⟨"t", "td", [("x", "number", "dx")], ["x"]⟩)]
        ⟨"t", "idw", .obj [("x", .str "3.14")], none, none⟩ =
      .ok ⟨"t", "idw", .obj [("x", .num (mkRat 157 50))],
           some (.obj [("x", .num (mkRat 157 50))]), none⟩
      ∧ (mkRat 157 50 : ℚ) = 3.14)
    ∧ parse_tool_arguments [("t", ⟨"t", "td", [("x", "number", "dx")], ["x"]⟩)]
        ⟨"t", "idw2", .obj [("x", .str "not-a-number")], none, none⟩ =
      .errored
        { id := "idw2", name := "t", result := none,
          error := some (.typeErr "t" "not-a-number") }
        ⟨"t", "idw2", .obj [("x", .str "not-a-number")],
         some (.obj [("x", .str "not-a-number")]), none⟩ :=
  ⟨(C4_amended_number_coercion "t" "x" "dx" "td" "idw" (.str "3.14")).1 rfl,
   (C4_amended_number_coercion "t" "x" "dx" "td" "idw2"
      (.str "not-a-number")).2.1 "not-a-number" rfl (by rfl)⟩

/-- **C10.**  When a ToolCall's raw arguments are already a mapping,
`parsed_arguments = tool_call.arguments` aliases the same dict, so a
successful validation leaves `arguments` equal to the final
`parsed_arguments`; in particular, stripping any extra key also removes it
from the raw arguments, which are then no longer the original mapping. -/
theorem C10_mapping_arguments_aliased (tools : List (String × Tool))
    (tc tc' : ToolCall) (tool : Tool) (m : List (String × JValue))
    (hargs : tc.arguments = .obj m)
    (hT : optTruthy tc.parsed_arguments = false)
    (hlk : lookupTool tools tc.name = some tool)
    (hok : parse_tool_arguments tools tc = .ok tc') :
    (∃ v, tc'.parsed_arguments = some v ∧ tc'.arguments = v)
    ∧ (∀ k, k ∈ objKeys m → ¬ tool.paramNames.contains k = true →
        tc'.arguments ≠ .obj m) := by
  have hdec : decodedValue tc = some (.obj m) := by
    simp [decodedValue, hargs]
  have hstr : isStrArguments tc = false := by
    simp [isStrArguments, hargs]
  rw [parse_eq_parseDecoded tools tc (.obj m) hT hdec, hstr] at hok
  obtain ⟨tool2, m2, final, hlk2, hv, hmiss, hcast, htc⟩ :=
    parseDecoded_ok_elim tools tc false (.obj m) tc' hok
  obtain rfl : m = m2 := JValue.obj.inj hv
  rw [hlk] at hlk2
  obtain rfl : tool = tool2 := Option.some.inj hlk2
  subst htc
  constructor
  · exact ⟨.obj final, withParsed_parsed _ _ _, rfl⟩
  · intro k hk hkd heq
    rw [withParsed_false_arguments] at heq
    have hfinal : final = m := JValue.obj.inj heq
    have hkeys : objKeys final = (objKeys m).filter (fun k => tool.paramNames.contains k) := by
      rw [castLoop_keys _ _ _ hcast, objKeys_stripExtras]
    have hkmem : k ∈ objKeys final := hfinal ▸ hk
    rw [hkeys, List.mem_filter] at hkmem
    exact hkd hkmem.2

theorem C10_mapping_arguments_aliased_witness :
    (⟨"t", "idq", .obj [("x", JValue.str "ok")],
        some (.obj [("x", JValue.str "ok")]), none⟩ : ToolCall).arguments ≠
      .obj [("x", JValue.str "ok"), ("junk", JValue.null)] :=
  (C10_mapping_arguments_aliased
    [("t", ⟨"t", "td", [("x", "string", "dx")], ["x"]⟩)]
    ⟨"t", "idq", .obj [("x", JValue.str "ok"), ("junk", JValue.null)], none, none⟩
    ⟨"t", "idq", .obj [("x", JValue.str "ok")],
      some (.obj [("x", JValue.str "ok")]), none⟩
    ⟨"t", "td", [("x", "string", "dx")], ["x"]⟩
    [("x", JValue.str "ok"), ("junk", JValue.null)]
    rfl rfl (by rfl) (by rfl)).2 "junk" (by decide) (by decide)

/-- **C7.**  Re-validation is idempotent.  First conjunct: if validation
succeeded once, running the validator again on the result succeeds and
returns the very same ToolCall (same `parsed_arguments`, no error, nothing
re-raised).  Second conjunct: whenever `parsed_arguments` is populated
(truthy), the validator short-circuits to success without reading the raw
arguments at all — the outcome is the same for any replacement of
`arguments`, so nothing is re-decoded.  The hypothesis `hInv` is the spec §3
tool invariant `requiredParameters ⊆ parameters.keys()`. -/
theorem C7_idempotent_validation (tools : List (String × Tool)) (tc tc' : ToolCall)
    (hInv : ∀ nm t, lookupTool tools nm = some t →
      ∀ p ∈ t.REQUIRED_PARAMETERS, p ∈ t.paramNames) :
    (parse_tool_arguments tools tc = .ok tc' →
      parse_tool_arguments tools tc' = .ok tc')
    ∧ (optTruthy tc.parsed_arguments = true →
        parse_tool_arguments tools tc = .ok tc ∧
        ∀ args2 : JValue,
          parse_tool_arguments tools { tc with arguments := args2 } =
            .ok { tc with arguments := args2 }) := by
  obtain ⟨n, i, a, p, t⟩ := tc
  constructor
  · intro hok
    by_cases hg : optTruthy p = true
    · simp only [parse_tool_arguments, hg, if_true] at hok
      rw [← ParseOutcome.ok.inj hok]
      simp [parse_tool_arguments, hg]
    · rw [Bool.not_eq_true] at hg
      cases a <;>
      first
      | (rename_i s
         simp only [parse_tool_arguments, hg, Bool.false_eq_true, if_false] at hok
         cases hj : json_loads s
         · simp [hj] at hok
         · rename_i v
           simp only [hj] at hok
           obtain ⟨tool, m, final, hlk, hveq, hmiss, hcast, htc⟩ :=
             parseDecoded_ok_elim tools _ true v tc' hok
           subst hveq
           subst htc
           simp only [withParsed_true_def] at *
           by_cases hfin : final.isEmpty = true
           · have hfe : final = [] := List.isEmpty_iff.mp hfin
             subst hfe
             simp only [parse_tool_arguments, optTruthy, pyTruthy, List.isEmpty_nil,
                        Bool.not_true, Bool.false_eq_true, if_false]
             simp only [hj]
             have h2 := parseDecoded_ok_intro tools
               ⟨n, i, JValue.str s, some (JValue.obj []), t⟩ true tool m []
               hlk hmiss hcast
             rw [h2]
             rfl
           · simp [parse_tool_arguments, optTruthy, pyTruthy, hfin])
      | (simp only [parse_tool_arguments, hg, Bool.false_eq_true, if_false] at hok
         obtain ⟨tool, m, final, hlk, hveq, hmiss, hcast, htc⟩ :=
           parseDecoded_ok_elim tools _ false _ tc' hok
         exact JValue.noConfusion hveq)
      | (rename_i m0
         simp only [parse_tool_arguments, hg, Bool.false_eq_true, if_false] at hok
         obtain ⟨tool, m, final, hlk, hveq, hmiss, hcast, htc⟩ :=
           parseDecoded_ok_elim tools _ false _ tc' hok
         obtain rfl := JValue.obj.inj hveq
         subst htc
         simp only [withParsed_false_def] at *
         by_cases hfin : final.isEmpty = true
         · have hfe : final = [] := List.isEmpty_iff.mp hfin
           subst hfe
           simp only [parse_tool_arguments, optTruthy, pyTruthy, List.isEmpty_nil,
                      Bool.not_true, Bool.false_eq_true, if_false]
           have hreq : tool.REQUIRED_PARAMETERS = [] := by
             rw [List.eq_nil_iff_forall_not_mem]
             intro r hr
             have hall := List.filter_eq_nil_iff.mp
               (List.isEmpty_iff.mp hmiss) r hr
             simp only [Bool.not_eq_true', Bool.not_eq_false] at hall
             have hrp : r ∈ tool.paramNames := hInv n tool hlk r hr
             have hkeys := castLoop_keys _ _ _ hcast
             rw [objKeys_stripExtras,
                 show objKeys ([] : List (String × JValue)) = ([] : List String)
                   from rfl] at hkeys
             have h4 := List.filter_eq_nil_iff.mp hkeys.symm r
               (List.elem_iff.mp hall)
             exact h4 (List.elem_iff.mpr hrp)
           have h2 := parseDecoded_ok_intro tools
             ⟨n, i, JValue.obj [], some (JValue.obj []), t⟩ false tool [] []
             hlk (by rw [hreq]; rfl)
             (by rw [show stripExtras tool.paramNames [] = [] from rfl, castLoop_nil])
           rw [h2]
           rfl
         · simp [parse_tool_arguments, optTruthy, pyTruthy, hfin])
  · intro hg
    refine ⟨by simp [parse_tool_arguments, hg], fun args2 => ?_⟩
    simp [parse_tool_arguments, hg]

theorem C7_idempotent_validation_witness :
    (parse_tool_arguments [("t", ⟨"t", "td", [("x", "string", "dx")], ["x"]⟩)]
        ⟨"t", "idr", .obj [("x", JValue.str "ok")],
          some (.obj [("x", JValue.str "ok")]), none⟩ =
      .ok ⟨"t", "idr", .obj [("x", JValue.str "ok")],
          some (.obj [("x", JValue.str "ok")]), none⟩)
    ∧ parse_tool_arguments [("t", ⟨"t", "td", [("x", "string", "dx")], ["x"]⟩)]
        { (⟨"t", "idr", .obj [("x", JValue.str "ok")],
            some (.obj [("x", JValue.str "ok")]), none⟩ : ToolCall) with
          arguments := JValue.null } =
      .ok { (⟨"t", "idr", .obj [("x", JValue.str "ok")],
            some (.obj [("x", JValue.str "ok")]), none⟩ : ToolCall) with
          arguments := JValue.null } :=
  ⟨((C7_idempotent_validation [("t", ⟨"t", "td", [("x", "string", "dx")], ["x"]⟩)]
      ⟨"t", "idr", .obj [("x", JValue.str "ok")],
        some (.obj [("x", JValue.str "ok")]), none⟩
      ⟨"t", "idr", .obj [("x", JValue.str "ok")],
        some (.obj [("x", JValue.str "ok")]), none⟩
      (by
        intro nm tl hl r hr
        simp only [lookupTool] at hl
        by_cases h : "t" = nm
        · rw [if_pos h] at hl
          obtain rfl : _ = tl := Option.some.inj hl
          simp [Tool.paramNames] at hr ⊢
          simpa using hr
        · rw [if_neg h] at hl
          exact Option.noConfusion hl)).2 rfl).1,
   ((C7_idempotent_validation [("t", ⟨"t", "td", [("x", "string", "dx")], ["x"]⟩)]
      ⟨"t", "idr", .obj [("x", JValue.str "ok")],
        some (.obj [("x", JValue.str "ok")]), none⟩
      ⟨"t", "idr", .obj [("x", JValue.str "ok")],
        some (.obj [("x", JValue.str "ok")]), none⟩
      (by
        intro nm tl hl r hr
        simp only [lookupTool] at hl
        by_cases h : "t" = nm
        · rw [if_pos h] at hl
          obtain rfl : _ = tl := Option.some.inj hl
          simp [Tool.paramNames] at hr ⊢
          simpa using hr
        · rw [if_neg h] at hl
          exact Option.noConfusion hl)).2 rfl).2 JValue.null⟩

/-- **C6 (counterexample).**  The claim says the output `parsed_arguments`
equals the JSON-decoded object with only the extra keys removed; but for a
parameter declared "number" the validator also coerces the value, so on
`{"x": "3.14"}` the output holds the float 3.14 where the decoded-minus-extras
object still holds the string "3.14". -/
theorem C6_counterexample_number_string :
    parsedOf (parse_tool_arguments
        [("t", ⟨"t", "d", [("x", "number", "dx")], ["x"]⟩)]
        ⟨"t", "id6", .str "\x7b\"x\": \"3.14\"\x7d", none, none⟩) =
      some (.obj [("x", .num (mkRat 157 50))])
    ∧ decodedMinusExtras ⟨"t", "d", [("x", "number", "dx")], ["x"]⟩
        "\x7b\"x\": \"3.14\"\x7d" = some (.obj [("x", .str "3.14")])
    ∧ JValue.num (mkRat 157 50) ≠ JValue.str "3.14" :=
  ⟨by rfl, by rfl, fun h => JValue.noConfusion h⟩

/-- **C6 (amended).**  For a ToolCall whose raw arguments are a valid JSON
object string and that validates successfully, the resulting
`parsed_arguments` is the decoded object with exactly the undeclared keys
removed AND the values of "number"-declared parameters coerced to float; the
raw argument string itself is untouched. -/
theorem C6_amended_strip_and_coerce (tools : List (String × Tool))
    (tc tc' : ToolCall) (tool : Tool) (s : String)
    (m : List (String × JValue))
    (hargs : tc.arguments = .str s)
    (hT : optTruthy tc.parsed_arguments = false)
    (hdec : json_loads s = some (.obj m))
    (hNm : (objKeys m).Nodup)
    (hlk : lookupTool tools tc.name = some tool)
    (hNp : (tool.PARAMETERS.map Prod.fst).Nodup)
    (hok : parse_tool_arguments tools tc = .ok tc') :
    tc'.parsed_arguments =
      some (.obj (coerceDeclared tool.PARAMETERS (stripExtras tool.paramNames m)))
    ∧ tc'.arguments = .str s := by
  have hdv : decodedValue tc = some (.obj m) := by simp [decodedValue, hargs, hdec]
  have hstr : isStrArguments tc = true := by simp [isStrArguments, hargs]
  rw [parse_eq_parseDecoded tools tc _ hT hdv, hstr] at hok
  obtain ⟨tool2, m2, final, hlk2, hveq, hmiss, hcast, htc⟩ :=
    parseDecoded_ok_elim tools tc true _ tc' hok
  obtain rfl : m = m2 := JValue.obj.inj hveq
  rw [hlk] at hlk2
  obtain rfl : tool = tool2 := Option.some.inj hlk2
  subst htc
  have hNs : (objKeys (stripExtras tool.paramNames m)).Nodup := by
    rw [objKeys_stripExtras]
    exact hNm.filter _
  have hfe : final = coerceDeclared tool.PARAMETERS (stripExtras tool.paramNames m) :=
    castLoop_done_eq tool.PARAMETERS _ final hNs hNp hcast
  subst hfe
  exact ⟨withParsed_parsed _ _ _, by rw [withParsed_true_arguments, hargs]⟩

theorem C6_amended_strip_and_coerce_witness :
    (⟨"t", "id6w", .str "\x7b\"x\": \"3.14\", \"junk\": true\x7d",
       some (.obj [("x", .num (mkRat 157 50))]), none⟩ : ToolCall).parsed_arguments =
      some (.obj (coerceDeclared [("x", "number", "dx")]
        (stripExtras (Tool.paramNames ⟨"t", "d", [("x", "number", "dx")], ["x"]⟩)
          [("x", JValue.str "3.14"), ("junk", JValue.bool true)])))
    ∧ (⟨"t", "id6w", .str "\x7b\"x\": \"3.14\", \"junk\": true\x7d",
       some (.obj [("x", .num (mkRat 157 50))]), none⟩ : ToolCall).arguments =
        .str "\x7b\"x\": \"3.14\", \"junk\": true\x7d" :=
  C6_amended_strip_and_coerce
    [("t", ⟨"t", "d", [("x", "number", "dx")], ["x"]⟩)]
    ⟨"t", "id6w", .str "\x7b\"x\": \"3.14\", \"junk\": true\x7d", none, none⟩
    ⟨"t", "id6w", .str "\x7b\"x\": \"3.14\", \"junk\": true\x7d",
      some (.obj [("x", .num (mkRat 157 50))]), none⟩
    ⟨"t", "d", [("x", "number", "dx")], ["x"]⟩
    "\x7b\"x\": \"3.14\", \"junk\": true\x7d"
    [("x", JValue.str "3.14"), ("junk", JValue.bool true)]
    rfl rfl (by rfl) (by decide) (by rfl) (by decide) (by rfl)

/-- **C1 (counterexample).**  The claim says every vendor exception —
including a rate-limit exception — is converted into a BackendResponse with
`error` set; but `OpenAIBackend.send` catches only `BadRequestError` and
`TogetherBackend.send` only `InvalidRequestError`, so a `RateLimitError`
propagates out of `send`. -/
theorem C1_counterexample_rate_limit :
    openaiSend 0 0 [{ role := .USER, content := some "List files" }]
        (.raise .rateLimitError) = .raised .rateLimitError
    ∧ togetherSend 0 0 [{ role := .USER, content := some "List files" }]
        (.raise .rateLimitError) = .raised .rateLimitError :=
  ⟨by rfl, by rfl⟩

/-- **C1 (amended).**  For the OpenAI and Together adapters, only the
bad-request exception class is converted into a BackendResponse with only
`error` set (content and toolCall None, cost 0); any other vendor exception,
including rate-limit, propagates out of `send`.  The Gemini adapter converts
every vendor exception into such an error response. -/
theorem C1_amended_error_boundary (in_price out_price : ℚ) (fresh_id : String)
    (ms : List Message) (e : PyExn) :
    (∀ l, formatOpenAI ms = .ok l →
      openaiSend in_price out_price ms (.raise .badRequestError) =
        .returned { content := none, error := some ("Backend Error", .badRequestError),
                    tool_call := none, cost := 0 }
      ∧ (e ≠ .badRequestError →
          openaiSend in_price out_price ms (.raise e) = .raised e))
    ∧ (∀ l, formatTogether ms = .ok l →
      togetherSend in_price out_price ms (.raise .invalidRequestError) =
        .returned { content := none, error := some ("Backend Error", .invalidRequestError),
                    tool_call := none, cost := 0 }
      ∧ (e ≠ .invalidRequestError →
          togetherSend in_price out_price ms (.raise e) = .raised e))
    ∧ (∀ g, formatGemini ms = .ok g →
      geminiSend in_price out_price fresh_id ms (.raise e) =
        .returned { content := none, error := some ("Gemini API Error", e),
                    tool_call := none, cost := 0 }) := by
  refine ⟨fun l hl => ⟨?_, fun hne => ?_⟩, fun l hl => ⟨?_, fun hne => ?_⟩,
          fun g hg => ?_⟩
  · simp [openaiSend, hl]
  · simp [openaiSend, hl, hne]
  · simp [togetherSend, hl]
  · simp [togetherSend, hl, hne]
  · simp [geminiSend, hg]

theorem C1_amended_error_boundary_witness :
    (openaiSend 0 0 [{ role := .USER, content := some "hi" }]
        (.raise .rateLimitError) = .raised .rateLimitError)
    ∧ geminiSend 0 0 "x" [{ role := .USER, content := some "hi" }]
        (.raise .rateLimitError) =
      .returned { content := none, error := some ("Gemini API Error", .rateLimitError),
                  tool_call := none, cost := 0 } :=
  ⟨((C1_amended_error_boundary 0 0 "x" [{ role := .USER, content := some "hi" }]
      .rateLimitError).1 [{ role := "user", content := some "hi" }]
      (by rfl)).2 (by decide),
   (C1_amended_error_boundary 0 0 "x" [{ role := .USER, content := some "hi" }]
      .rateLimitError).2.2 (none, [{ role := "user", parts := [.text "hi"] }])
      (by rfl)⟩

/-- The Gemini part-extraction loop keeps the LAST function-call part. -/
theorem geminiExtractLoop_toolCall (fid : String) (c0 : Option String)
    (t0 : Option ToolCall) (parts : List GRespPart) :
    (geminiExtractLoop fid c0 t0 parts).2 =
      (match lastFunctionCallPart parts with
       | some p => mkGeminiToolCall fid p
       | none => t0) := by
  induction parts generalizing c0 t0 with
  | nil => rfl
  | cons p rest ih =>
    simp only [geminiExtractLoop]
    rw [ih]
    cases hfc : p.function_call with
    | none =>
      simp [lastFunctionCallPart, List.filter_cons, hfc]
    | some fc =>
      simp only [lastFunctionCallPart, List.filter_cons, hfc, Option.isSome_some,
                 if_true]
      cases hfr : rest.filter (fun p2 => p2.function_call.isSome) with
      | nil =>
        simp [lastFunctionCallPart, hfr, mkGeminiToolCall, hfc]
      | cons q qs =>
        simp only [lastFunctionCallPart, hfr, List.getLast?_cons_cons,
                   mkGeminiToolCall, hfc]
        cases hl2 : (q :: qs).getLast? with
        | none => simp at hl2
        | some pl => rfl

/-- **C2 (counterexample).**  The claim says the adapter keeps the FIRST
tool invocation of the response; but the Gemini adapter's part loop
overwrites the tool-call slot on every function-call part, so the LAST one
wins: on a response with calls "a" then "b", the returned toolCall is "b",
not the first call "a". -/
theorem C2_counterexample_gemini_last :
    sendToolCall (geminiSend 0 0 "id0" [{ role := .USER, content := some "hi" }]
        (.success { candidates := some [{ content := some { parts := some [
            ({ function_call := some { name := "a" } } : GRespPart),
            ({ function_call := some { name := "b" } } : GRespPart)] } }] })) =
      some { name := "b", id := "id0", arguments := .obj [],
             thought_signature := none }
    ∧ geminiFirstFunctionCallName { candidates := some [{ content := some { parts := some [
            ({ function_call := some { name := "a" } } : GRespPart),
            ({ function_call := some { name := "b" } } : GRespPart)] } }] } = some "a"
    ∧ ("b" : String) ≠ "a" :=
  ⟨by rfl, by rfl, by decide⟩

/-- **C2 (amended).**  Every adapter returns at most one toolCall.  The
OpenAI-style adapter keeps the FIRST entry of the vendor's tool_calls list;
the Gemini adapter keeps the LAST function-call part of the first
candidate. -/
theorem C2_amended_first_vs_last (in_price out_price : ℚ) (fresh_id : String)
    (ms : List Message) (resp : OAIResponse) (gresp : GeminiResponse)
    (u : OAIUsage) (ch : OAIChoice) (chs : List OAIChoice)
    (c : OAICall) (cs : List OAICall)
    (cand : GCandidate) (cands : List GCandidate)
    (gc : GRespContent) (parts : List GRespPart) :
    (∀ l, formatOpenAI ms = .ok l → resp.usage = some u →
      resp.choices = ch :: chs → ch.message.tool_calls = some (c :: cs) →
      openaiSend in_price out_price ms (.success resp) =
        .returned { content := ch.message.content,
                    error := none,
                    tool_call := some { name := c.function.name, id := c.id,
                                        arguments := .str c.function.arguments },
                    cost := in_price * u.prompt_tokens + out_price * u.completion_tokens })
    ∧ (∀ g, formatGemini ms = .ok g → gresp.candidates = some (cand :: cands) →
        cand.content = some gc → gc.parts = some parts →
        sendToolCall (geminiSend in_price out_price fresh_id ms (.success gresp)) =
          (match lastFunctionCallPart parts with
           | some p => mkGeminiToolCall fresh_id p
           | none => none)) := by
  constructor
  · intro l hl hu hch htc
    simp [openaiSend, hl, openaiCalculateCost, hu, hch, htc]
  · intro g hg hcand hcont hparts
    simp only [geminiSend, hg, hcand, hcont, hparts]
    simp [sendToolCall, geminiExtractLoop_toolCall]

theorem C2_amended_first_vs_last_witness :
    openaiSend 0 0 [{ role := .USER, content := some "hi" }]
        (.success { choices := [{ message := { content := none, tool_calls := some [
            ({ id := "c1", function := { name := "f1", arguments := "\x7b\x7d" } } : OAICall),
            ({ id := "c2", function := { name := "f2", arguments := "\x7b\x7d" } } : OAICall)] } }],
                    usage := some { prompt_tokens := 1, completion_tokens := 2 } }) =
      .returned { content := none, error := none,
                  tool_call := some { name := "f1", id := "c1",
                                      arguments := .str "\x7b\x7d" },
                  cost := (0:ℚ) * (1:ℕ) + (0:ℚ) * (2:ℕ) } :=
  (C2_amended_first_vs_last 0 0 "x" [{ role := .USER, content := some "hi" }]
      { choices := [{ message := { content := none, tool_calls := some [
          ({ id := "c1", function := { name := "f1", arguments := "\x7b\x7d" } } : OAICall),
          ({ id := "c2", function := { name := "f2", arguments := "\x7b\x7d" } } : OAICall)] } }],
        usage := some { prompt_tokens := 1, completion_tokens := 2 } }
      { candidates := none }
      { prompt_tokens := 1, completion_tokens := 2 }
      { message := { content := none, tool_calls := some [
          ({ id := "c1", function := { name := "f1", arguments := "\x7b\x7d" } } : OAICall),
          ({ id := "c2", function := { name := "f2", arguments := "\x7b\x7d" } } : OAICall)] } }
      [] { id := "c1", function := { name := "f1", arguments := "\x7b\x7d" } }
      [{ id := "c2", function := { name := "f2", arguments := "\x7b\x7d" } }]
      { content := none } [] { parts := none } []).1
    [{ role := "user", content := some "hi" }] (by rfl) rfl rfl rfl

/-- **C5 (counterexample).**  The claim says an absent/null usage object
gives cost 0 and the turn still succeeds; but `OpenAIBackend.calculate_cost`
dereferences `response.usage` without a None-check, and the resulting
`AttributeError` is not caught by `send` (which only catches
`BadRequestError`), so the turn raises instead of succeeding. -/
theorem C5_counterexample_openai_usage_none :
    openaiSend (mkRat 2 1000000) (mkRat 10 1000000)
        [{ role := .USER, content := some "hi" }]
        (.success { choices := [{ message := { content := some "ok" } }],
                    usage := none }) =
      .raised (.attributeError "prompt_tokens") := by
  rfl

/-- **C5 (amended).**  The cost formula is
`inputPrice × promptTokens + outputPrice × completionTokens` for every
adapter.  The Gemini adapter returns 0 when usage metadata is absent; the
OpenAI-style adapter instead assumes usage is present and raises
`AttributeError` when it is absent. -/
theorem C5_amended_cost (in_price out_price : ℚ) (resp : OAIResponse)
    (g : GeminiResponse) (u : OAIUsage) (gu : GUsage) :
    (resp.usage = some u →
      openaiCalculateCost in_price out_price resp =
        .ok (in_price * u.prompt_tokens + out_price * u.completion_tokens))
    ∧ (resp.usage = none →
        openaiCalculateCost in_price out_price resp =
          .error (.attributeError "prompt_tokens"))
    ∧ (g.usage_metadata = some gu →
        geminiCalculateCost in_price out_price g =
          in_price * (gu.prompt_token_count.getD 0) +
          out_price * (gu.candidates_token_count.getD 0))
    ∧ (g.usage_metadata = none → geminiCalculateCost in_price out_price g = 0) :=
  ⟨fun h => by simp [openaiCalculateCost, h],
   fun h => by simp [openaiCalculateCost, h],
   fun h => by simp [geminiCalculateCost, h],
   fun h => by simp [geminiCalculateCost, h]⟩

/-- Witness for C5: the spec's cost scenario — promptTokens=1000,
completionTokens=200, inputPrice=2e-6, outputPrice=10e-6 gives 0.004 — and
the Gemini missing-usage case gives 0. -/
theorem C5_amended_cost_witness :
    openaiCalculateCost (2/1000000) (10/1000000)
        { choices := [],
          usage := some { prompt_tokens := 1000, completion_tokens := 200 } } =
      .ok ((2:ℚ)/1000000 * ((1000:ℕ) : ℚ) + (10:ℚ)/1000000 * ((200:ℕ) : ℚ))
    ∧ ((2:ℚ)/1000000 * ((1000:ℕ) : ℚ) + (10:ℚ)/1000000 * ((200:ℕ) : ℚ)) = 0.004
    ∧ geminiCalculateCost (2/1000000) (10/1000000)
        { candidates := none, usage_metadata := none } = 0 :=
  ⟨(C5_amended_cost (2/1000000) (10/1000000)
      { choices := [],
        usage := some { prompt_tokens := 1000, completion_tokens := 200 } }
      { candidates := none, usage_metadata := none }
      { prompt_tokens := 1000, completion_tokens := 200 }
      { prompt_token_count := none, candidates_token_count := none }).1 rfl,
   by norm_num,
   (C5_amended_cost (2/1000000) (10/1000000)
      { choices := [],
        usage := some { prompt_tokens := 1000, completion_tokens := 200 } }
      { candidates := none, usage_metadata := none }
      { prompt_tokens := 1000, completion_tokens := 200 }
      { prompt_token_count := none, candidates_token_count := none }).2.2.2 rfl⟩

/-- **C8 (counterexample).**  The claim says a ToolCall that HAS a
thoughtSignature gets it emitted unchanged; but the adapters use Python
truthiness (`if not thought_sig`), so a present-but-empty signature is
replaced by the placeholder instead of being round-tripped. -/
theorem C8_counterexample_empty_signature :
    formatGeminiMessage
      { role := .ASSISTANT, content := none,
        tool_data := some (.call ⟨"t", "id8", .obj [], none, some ""⟩) } =
      .ok (.emit { role := "model",
                   parts := [.functionCall "t" (.obj [])
                     "skip_thought_signature_validator"] })
    ∧ skipThoughtSignaturePlaceholder ≠ "" :=
  ⟨by rfl, by decide⟩

/-- **C8 (amended).**  When the Gemini/Vertex adapters format an ASSISTANT
message carrying a ToolCall: a non-empty thoughtSignature is emitted
unchanged, and an absent OR empty one is replaced by the vendor placeholder
`"skip_thought_signature_validator"` rather than omitted. -/
theorem C8_amended_thought_signature (m : Message) (tc : ToolCall)
    (args : JValue)
    (hrole : m.role = .ASSISTANT)
    (htd : m.tool_data = some (.call tc))
    (hargs : geminiArgsOf tc.arguments = .ok args) :
    ((tc.thought_signature = none ∨ tc.thought_signature = some "") →
      formatGeminiMessage m =
        .ok (.emit { role := "model",
                     parts := [.functionCall tc.name args
                       skipThoughtSignaturePlaceholder] })
      ∧ formatVertexMessage m =
        .ok (.emit { role := "model",
                     parts := [.functionCall tc.name args
                       skipThoughtSignaturePlaceholder] }))
    ∧ (∀ sg : String, sg ≠ "" → tc.thought_signature = some sg →
        formatGeminiMessage m =
          .ok (.emit { role := "model", parts := [.functionCall tc.name args sg] })
        ∧ formatVertexMessage m =
          .ok (.emit { role := "model", parts := [.functionCall tc.name args sg] })) := by
  obtain ⟨r, co, td⟩ := m
  simp only at hrole htd
  subst hrole
  subst htd
  constructor
  · rintro (hs | hs) <;>
      constructor <;>
        simp [formatGeminiMessage, formatVertexMessage, hargs, hs]
  · intro sg hsg hs
    constructor <;>
      simp [formatGeminiMessage, formatVertexMessage, hargs, hs, hsg]

theorem C8_amended_thought_signature_witness :
    formatGeminiMessage
      { role := .ASSISTANT, content := none,
        tool_data := some (.call ⟨"t", "id9", .obj [], none, some "SIG"⟩) } =
      .ok (.emit { role := "model", parts := [.functionCall "t" (.obj []) "SIG"] })
    ∧ formatVertexMessage
      { role := .ASSISTANT, content := none,
        tool_data := some (.call ⟨"t", "id9", .obj [], none, some "SIG"⟩) } =
      .ok (.emit { role := "model", parts := [.functionCall "t" (.obj []) "SIG"] }) :=
  (C8_amended_thought_signature
    { role := .ASSISTANT, content := none,
      tool_data := some (.call ⟨"t", "id9", .obj [], none, some "SIG"⟩) }
    ⟨"t", "id9", .obj [], none, some "SIG"⟩ (.obj [])
    rfl rfl (by rfl)).2 "SIG" (by decide) rfl

/-- **C9 (counterexample).**  The claim says the KeyError message lists valid
model names "for that adapter's vendor"; but `MODEL_INFO` strips the
`backend` key before the constructor filters on it, so
`info.get('backend', self.NAME)` always returns the default and the listing
contains models of every vendor — here "gem", whose configured backend is
"gemini", is listed by the openai adapter. -/
theorem C9_counterexample_cross_vendor_listing :
    backendInit "openai" [] "missing-model"
        (buildModelInfo
          [("gpt", { backend := "openai", max_context := 100,
                     cost_per_input_token := 0, cost_per_output_token := 0 }),
           ("gem", { backend := "gemini", max_context := 200,
                     cost_per_input_token := 0, cost_per_output_token := 0 })]) =
      .keyError "missing-model" ["gpt", "gem"] false
    ∧ configBackendOf
        [("gpt", { backend := "openai", max_context := 100,
                   cost_per_input_token := 0, cost_per_output_token := 0 }),
         ("gem", { backend := "gemini", max_context := 200,
                   cost_per_input_token := 0, cost_per_output_token := 0 })]
        "gem" = some "gemini"
    ∧ ("gemini" : String) ≠ "openai"
    ∧ "gem" ∈ ["gpt", "gem"] :=
  ⟨by rfl, by rfl, by decide, by decide⟩

/-- **C9 (amended).**  An Adapter constructor fails immediately with a
KeyError when the model is absent from the table, and the error message
lists at most 10 model names; but they are drawn from the WHOLE table (every
vendor), not filtered to the adapter's vendor, because `MODEL_INFO` no
longer carries the `backend` key.  When the model is present, construction
succeeds with the table's prices. -/
theorem C9_amended_model_listing (NAME : String) (classMODELS : List String)
    (model : String) (table : List (String × ModelInfoEntry))
    (hname : NAME ≠ "base") :
    (lookupModelInfo table model = none →
      backendInit NAME classMODELS model table =
        .keyError model ((table.map Prod.fst).take 10)
          (decide (table.length > 10))
      ∧ ((table.map Prod.fst).take 10).length ≤ 10)
    ∧ (∀ info, lookupModelInfo table model = some info →
        backendInit NAME classMODELS model table =
          .ok info.cost_per_input_token info.cost_per_output_token) := by
  constructor
  · intro h
    constructor
    · simp [backendInit, hname, h, infoGetBackend, List.filter_true]
    · rw [List.length_take]
      exact min_le_left _ _
  · intro info h
    simp [backendInit, hname, h]

theorem C9_amended_model_listing_witness :
    (backendInit "together" [] "nope"
        [("m1", { max_context := 1, cost_per_input_token := 0,
                  cost_per_output_token := 0 })] =
      .keyError "nope" ["m1"] false
      ∧ ((([("m1", ({ max_context := 1, cost_per_input_token := 0,
                      cost_per_output_token := 0 } : ModelInfoEntry))] :
              List (String × ModelInfoEntry)).map
            Prod.fst).take 10).length ≤ 10)
    ∧ backendInit "together" [] "m1"
        [("m1", { max_context := 1, cost_per_input_token := 0,
                  cost_per_output_token := 0 })] = .ok 0 0 :=
  ⟨(C9_amended_model_listing "together" [] "nope"
      [("m1", { max_context := 1, cost_per_input_token := 0,
                cost_per_output_token := 0 })] (by decide)).1 rfl,
   (C9_amended_model_listing "together" [] "m1"
      [("m1", { max_context := 1, cost_per_input_token := 0,
                cost_per_output_token := 0 })] (by decide)).2
      { max_context := 1, cost_per_input_token := 0, cost_per_output_token := 0 }
      rfl⟩
